/-
Verification of the repository synchronization engine of `backup_repos.py`
(GitHub Repository Backup Tool).

The engine is shallowly embedded: filesystem paths are lists of segments,
the filesystem is the finite set (list) of existing paths, external
`subprocess.run` invocations are oracles supplying a `RunResult`, console
output is a list of structured `Event`s, and mutating I/O is recorded as a
list of `Effect`s.  Each Lean definition mirrors one Python function of the
source file, keeping its name.
-/
import Mathlib

namespace BackupRepos

/-- A filesystem path, as its list of segments. -/
abbrev Path := List String

/-- Python `str(path)`: segments joined by `/` (POSIX rendering of `pathlib.Path`). -/
def pathStr (p : Path) : String := String.intercalate "/" p

/-- The repository descriptor dictionary built by `get_all_repositories`
(only the fields the synchronization engine reads).  `priv` models the
dict key `private` (a Lean keyword), `fork` the key `fork`. -/
structure Repo where
  name : String
  full_name : String
  priv : Bool
  fork : Bool
  clone_url : String
deriving DecidableEq, Repr

/-- The `GitHubRepoBackup` object: the constructor token (stored into
`self.github`) and `self.backup_path`. -/
structure GitHubRepoBackup where
  token : String
  backup_path : Path
deriving DecidableEq, Repr

/-- Source `GitHubRepoBackup.get_backup_subdirectory` (lines 154-161):
fork → `forks`, else private → `private`, else `public`. -/
def get_backup_subdirectory (self : GitHubRepoBackup) (repo : Repo) : Path :=
  if repo.fork then
    self.backup_path ++ ["forks"]
  else if repo.priv then
    self.backup_path ++ ["private"]
  else
    self.backup_path ++ ["public"]

/-- The path `backup_dir / repo_name`, computed identically at lines 166-167,
207-208 and 258-259. -/
def repoPath (self : GitHubRepoBackup) (repo : Repo) : Path :=
  get_backup_subdirectory self repo ++ [repo.name]

/-- C1: routing is a pure function of `(fork, private)` with fork taking
precedence, and the local path is `backupRoot / categoryDir / name`. -/
theorem route_pure_priority (self : GitHubRepoBackup) (r1 r2 repo : Repo)
    (hfork : r1.fork = r2.fork) (hpriv : r1.priv = r2.priv) :
    get_backup_subdirectory self r1 = get_backup_subdirectory self r2
    ∧ (repo.fork = true →
        get_backup_subdirectory self repo = self.backup_path ++ ["forks"])
    ∧ (repo.fork = false → repo.priv = true →
        get_backup_subdirectory self repo = self.backup_path ++ ["private"])
    ∧ (repo.fork = false → repo.priv = false →
        get_backup_subdirectory self repo = self.backup_path ++ ["public"])
    ∧ repoPath self repo = get_backup_subdirectory self repo ++ [repo.name] := by
  refine ⟨?_, ?_, ?_, ?_, rfl⟩
  · simp [get_backup_subdirectory, hfork, hpriv]
  · intro h; simp [get_backup_subdirectory, h]
  · intro h1 h2; simp [get_backup_subdirectory, h1, h2]
  · intro h1 h2; simp [get_backup_subdirectory, h1, h2]

/-- C1 witness: a repository that is both private and a fork routes to
`forks`, not `private`, and its path is `bk/forks/A`. -/
theorem route_pure_priority_witness :
    get_backup_subdirectory ⟨"t", ["bk"]⟩ ⟨"A", "u/A", true, true, "x"⟩
        = ["bk", "forks"]
    ∧ repoPath ⟨"t", ["bk"]⟩ ⟨"A", "u/A", true, true, "x"⟩
        = ["bk", "forks", "A"] := by
  have h := route_pure_priority ⟨"t", ["bk"]⟩
    ⟨"A", "u/A", true, true, "x"⟩ ⟨"A", "u/A", true, true, "x"⟩
    ⟨"A", "u/A", true, true, "x"⟩ rfl rfl
  exact ⟨h.2.1 rfl, by rw [h.2.2.2.2, h.2.1 rfl]; rfl⟩

/-! ### Python string primitives used by the credential injector -/

/-- Python `str.replace(pat, rep)` on character lists, fuel-indexed so the
recursion is structural: every step consumes at least one character of `s`,
so `s.length` fuel always suffices (see `pyreplace`). -/
def pyreplaceAux (pat rep : List Char) : Nat → List Char → List Char
  | _, [] => []
  | 0, s => s
  | fuel + 1, c :: cs =>
    if pat ≠ [] ∧ pat.isPrefixOf (c :: cs) then
      rep ++ pyreplaceAux pat rep fuel ((c :: cs).drop pat.length)
    else
      c :: pyreplaceAux pat rep fuel cs

/-- Python `str.replace(pat, rep)`: replace every non-overlapping
occurrence of `pat` in `s`, scanning left to right. -/
def pyreplace (s pat rep : List Char) : List Char :=
  pyreplaceAux pat rep s.length s

/-- The outcome of one `subprocess.run` call: normal completion with an
exit code and captured output, `subprocess.TimeoutExpired`, or another
exception. -/
inductive RunResult where
  | completed (returncode : Int) (stdout stderr : String)
  | timedOut
  | exn (msg : String)
deriving DecidableEq, Repr

/-- An `os.getenv` result rendered into an f-string: Python prints `None`
for an unset variable. -/
def tokenEnvString : Option String → String
  | none => "None"
  | some t => t

/-- The credential-injection step of `clone_repository` (lines 179-184):
if `clone_url` starts with `https://github.com/`, substitute
`https://{token}@github.com/` for it (`str.replace`, all occurrences);
otherwise the URL is left untouched. -/
def injectToken (env_token : Option String) (clone_url : String) : String :=
  if List.isPrefixOf "https://github.com/".data clone_url.data then
    ⟨pyreplace clone_url.data "https://github.com/".data
      ("https://" ++ tokenEnvString env_token ++ "@github.com/").data⟩
  else
    clone_url

/-! ### Console events and mutating effects -/

/-- One console message, carrying exactly the data the source interpolates
into it.  The console is the Reporter boundary: everything the program
shows the user goes through these events. -/
inductive Event where
  | skipping (name : String)
  | wouldClone (full_name : String) (path : Path)
  | cloned (name : String)
  | cloneFailed (name : String) (stderr : String)
  | timeoutClone (name : String)
  | errorClone (name : String) (msg : String)
  | wouldUpdate (name : String)
  | updated (name : String)
  | couldNotUpdate (name : String) (stderr : String)
  | timeoutUpdate (name : String)
  | errorUpdate (name : String) (msg : String)
  | processing (name : String)
  | noRepos
  | summaryTable (newlyCloned updated failed totalProcessed : Nat)
  | failedWarning (failed : Nat)
deriving DecidableEq, Repr

/-- One piece of mutating I/O: a `mkdir` or an external `git` process run
with a timeout (seconds).  Existence checks are reads and are not effects. -/
inductive Effect where
  | mkdir (p : Path)
  | gitRun (args : List String) (timeout : Nat)
deriving DecidableEq, Repr

/-- Result of one per-repository engine call: the returned bool, the
console events emitted, the mutating effects performed, and the filesystem
afterwards. -/
structure StepResult where
  ok : Bool
  events : List Event
  effects : List Effect
  fs : List Path
deriving DecidableEq, Repr

/-- Python `str.strip()`: drop whitespace from both ends (structural, so
it evaluates in the kernel). -/
def pystrip (s : String) : String :=
  ⟨((s.data.dropWhile Char.isWhitespace).reverse.dropWhile
      Char.isWhitespace).reverse⟩

/-- Filesystem outcome of an external `git clone url path` (transfer
collaborator, spec section 6): on success the destination exists and
contains the `.git` version-control marker; on failure git leaves the
pre-existing tree untouched (it refuses a non-empty destination and cleans
up a partial clone). -/
def cloneFsEffect (repo_path : Path) (res : RunResult) (fs : List Path) :
    List Path :=
  match res with
  | .completed 0 _ _ => repo_path :: (repo_path ++ [".git"]) :: fs
  | _ => fs

/-- Source `GitHubRepoBackup.clone_repository` (lines 163-202).  `env_token` is
the value of `os.getenv` for GITHUB_TOKEN at call time (line 183); `res` is
the oracle for the `subprocess.run` of `git clone` (line 188). -/
def clone_repository (self : GitHubRepoBackup) (env_token : Option String)
    (repo : Repo) (fs : List Path) (dry_run : Bool) (res : RunResult) :
    StepResult :=
  let repo_path := repoPath self repo
  if repo_path ∈ fs ∧ (repo_path ++ [".git"]) ∈ fs then
    { ok := true, events := [.skipping repo.name], effects := [], fs := fs }
  else if dry_run then
    { ok := true, events := [.wouldClone repo.full_name repo_path],
      effects := [], fs := fs }
  else
    let clone_url := injectToken env_token repo.clone_url
    let cmd := ["git", "clone", clone_url, pathStr repo_path]
    match res with
    | .completed rc _ stderr =>
      if rc = 0 then
        { ok := true, events := [.cloned repo.name],
          effects := [.gitRun cmd 300], fs := cloneFsEffect repo_path res fs }
      else
        { ok := false, events := [.cloneFailed repo.name (pystrip stderr)],
          effects := [.gitRun cmd 300], fs := fs }
    | .timedOut =>
        { ok := false, events := [.timeoutClone repo.name],
          effects := [.gitRun cmd 300], fs := fs }
    | .exn msg =>
        { ok := false, events := [.errorClone repo.name msg],
          effects := [.gitRun cmd 300], fs := fs }

/-- Source `GitHubRepoBackup.update_repository` (lines 204-234).  `res` is the
oracle for the `subprocess.run` of `git -C path pull --ff-only`
(line 220). -/
def update_repository (self : GitHubRepoBackup) (repo : Repo)
    (fs : List Path) (dry_run : Bool) (res : RunResult) : StepResult :=
  let repo_path := repoPath self repo
  if ¬ repo_path ∈ fs ∨ ¬ (repo_path ++ [".git"]) ∈ fs then
    { ok := false, events := [], effects := [], fs := fs }
  else if dry_run then
    { ok := true, events := [.wouldUpdate repo.name], effects := [], fs := fs }
  else
    let cmd := ["git", "-C", pathStr repo_path, "pull", "--ff-only"]
    match res with
    | .completed rc _ stderr =>
      if rc = 0 then
        { ok := true, events := [.updated repo.name],
          effects := [.gitRun cmd 60], fs := fs }
      else
        { ok := false, events := [.couldNotUpdate repo.name (pystrip stderr)],
          effects := [.gitRun cmd 60], fs := fs }
    | .timedOut =>
        { ok := false, events := [.timeoutUpdate repo.name],
          effects := [.gitRun cmd 60], fs := fs }
    | .exn msg =>
        { ok := false, events := [.errorUpdate repo.name msg],
          effects := [.gitRun cmd 60], fs := fs }

/-! ### Batch orchestrator -/

/-- How one repository was accounted for by the orchestrator loop
(lines 263-273): which branch was taken and which counter was bumped. -/
inductive StepOutcome where
  | clonedNew
  | cloneFailed
  | updatedExisting
  | updateFailed
deriving DecidableEq, Repr

/-- The loop body of `backup_repositories` for one repository
(lines 263-273): if the destination exists and has the `.git` marker,
call `update_repository`, else call `clone_repository`; the returned bool
selects the counter. -/
def process_one (self : GitHubRepoBackup) (env_token : Option String)
    (repo : Repo) (fs : List Path) (dry_run : Bool) (res : RunResult) :
    StepOutcome × StepResult :=
  let repo_path := repoPath self repo
  if repo_path ∈ fs ∧ (repo_path ++ [".git"]) ∈ fs then
    let r := update_repository self repo fs dry_run res
    (if r.ok then .updatedExisting else .updateFailed, r)
  else
    let r := clone_repository self env_token repo fs dry_run res
    (if r.ok then .clonedNew else .cloneFailed, r)

/-- Run-level state of `backup_repositories`: the three counters
(`successful` counts new clones, line 242-244), the console events, the
mutating effects, and the filesystem. -/
structure RunState where
  successful : Nat
  failed : Nat
  updated : Nat
  events : List Event
  effects : List Effect
  fs : List Path
deriving DecidableEq, Repr

/-- The `for repo in repos` loop of `backup_repositories` (lines 256-275).
`oracle i` supplies the result of the single external `git` invocation made
for the i-th repository. -/
def backup_loop (self : GitHubRepoBackup) (env_token : Option String)
    (dry_run : Bool) (oracle : Nat → RunResult) :
    List Repo → Nat → RunState → RunState
  | [], _, s => s
  | repo :: rest, i, s =>
    let step := process_one self env_token repo s.fs dry_run (oracle i)
    backup_loop self env_token dry_run oracle rest (i + 1)
      { successful := if step.1 = .clonedNew then s.successful + 1
                      else s.successful,
        failed := if step.1 = .cloneFailed ∨ step.1 = .updateFailed
                  then s.failed + 1 else s.failed,
        updated := if step.1 = .updatedExisting then s.updated + 1
                   else s.updated,
        events := s.events ++ .processing repo.name :: step.2.events,
        effects := s.effects ++ step.2.effects,
        fs := step.2.fs }

/-- The epilogue of `backup_repositories` (lines 277-291): emit the
summary table — `Total processed` is `len(repos)` (line 286) — and the
warning when `failed > 0` (lines 290-291). -/
def finalizeRun (s : RunState) (total : Nat) : RunState :=
  { s with events := s.events
      ++ [.summaryTable s.successful s.updated s.failed total]
      ++ (if s.failed > 0 then [.failedWarning s.failed] else []) }

/-- Source `GitHubRepoBackup.backup_repositories` (lines 236-291): early return
when the list is empty, otherwise the loop followed by the summary
epilogue. -/
def backup_repositories (self : GitHubRepoBackup) (env_token : Option String)
    (repos : List Repo) (fs : List Path) (dry_run : Bool)
    (oracle : Nat → RunResult) : RunState :=
  if repos.isEmpty then
    { successful := 0, failed := 0, updated := 0, events := [.noRepos],
      effects := [], fs := fs }
  else
    finalizeRun
      (backup_loop self env_token dry_run oracle repos 0
        { successful := 0, failed := 0, updated := 0, events := [],
          effects := [], fs := fs })
      repos.length

/-- Source `GitHubRepoBackup.setup_backup_directories` (lines 77-92), success
branch: four idempotent `mkdir` calls (backup root, then `public`,
`private`, `forks`).  The exception branch returns `False` and performs no
further effects; no claim depends on it. -/
def setup_backup_directories (self : GitHubRepoBackup) :
    Bool × List Effect :=
  (true,
    [.mkdir self.backup_path,
     .mkdir (self.backup_path ++ ["public"]),
     .mkdir (self.backup_path ++ ["private"]),
     .mkdir (self.backup_path ++ ["forks"])])

/-- The mutating effects of `main` (lines 294-341): exit if `GITHUB_TOKEN`
is unset, validate the token, ALWAYS run `setup_backup_directories`
(line 323, before and regardless of `--dry-run`), exit if the listing is
empty, ask for confirmation only when not a dry run, then back up. -/
def mainEffects (env_token : Option String) (backup_path : Path)
    (token_valid : Bool) (repos : List Repo) (fs : List Path)
    (dry_run : Bool) (confirmed : Bool) (oracle : Nat → RunResult) :
    List Effect :=
  match env_token with
  | none => []
  | some token =>
    let backup_manager : GitHubRepoBackup := ⟨token, backup_path⟩
    if ¬ token_valid then []
    else
      (setup_backup_directories backup_manager).2
        ++ (if repos.isEmpty then []
            else if ¬ dry_run ∧ ¬ confirmed then []
            else (backup_repositories backup_manager env_token repos fs
                    dry_run oracle).effects)

/-! ### Credential injector theorems (C8) -/

/-- Unfolding step of `pyreplace` when the pattern matches at the head. -/
theorem pyreplace_step (pat rep : List Char) (c : Char) (cs : List Char)
    (hne : pat ≠ []) (hp : pat.isPrefixOf (c :: cs) = true) :
    pyreplace (c :: cs) pat rep
      = rep ++ pyreplaceAux pat rep cs.length ((c :: cs).drop pat.length) := by
  simp [pyreplace, pyreplaceAux, hne, hp]

/-- A URL not starting with `https://github.com/` is not rewritten. -/
theorem injectToken_foreign_scheme (env_token : Option String) (url : String)
    (h : List.isPrefixOf "https://github.com/".data url.data = false) :
    injectToken env_token url = url := by
  simp [injectToken, h]

/-- A URL starting with `https://github.com/` is rewritten to start with
`https://{token}@github.com/`. -/
theorem injectToken_auth_prefixed (env_token : Option String) (url : String)
    (h : List.isPrefixOf "https://github.com/".data url.data = true) :
    ("https://" ++ tokenEnvString env_token ++ "@github.com/").data
      <+: (injectToken env_token url).data := by
  have hne : ("https://github.com/".data : List Char) ≠ [] := by decide
  unfold injectToken
  cases hd : url.data with
  | nil =>
    rw [hd] at h
    exact absurd h (by decide)
  | cons c cs =>
    rw [hd] at h
    simp only [h, if_true]
    rw [pyreplace_step _ _ _ _ hne h]
    exact ⟨_, rfl⟩

/-- C8: the credential injector rewrites exactly the URLs that start with
`https://github.com/` — any other URL is returned character-for-character
unchanged — and a rewritten URL starts with
`https://{token}@github.com/`. -/
theorem injector_spec (env_token : Option String) (url : String) :
    (List.isPrefixOf "https://github.com/".data url.data = false →
      injectToken env_token url = url)
    ∧ (List.isPrefixOf "https://github.com/".data url.data = true →
      ("https://" ++ tokenEnvString env_token ++ "@github.com/").data
        <+: (injectToken env_token url).data) :=
  ⟨injectToken_foreign_scheme env_token url, injectToken_auth_prefixed env_token url⟩

/-- C8 witness: an SSH-style URL passes through unchanged; an HTTPS
GitHub URL is rewritten to start with the authenticated prefix. -/
theorem injector_spec_witness :
    injectToken (some "tok") "git@github.com:u/r.git" = "git@github.com:u/r.git"
    ∧ ("https://" ++ tokenEnvString (some "tok") ++ "@github.com/").data
        <+: (injectToken (some "tok") "https://github.com/u/r.git").data := by
  constructor
  · exact (injector_spec (some "tok") "git@github.com:u/r.git").1 (by decide)
  · exact (injector_spec (some "tok") "https://github.com/u/r.git").2 (by decide)

/-! ### Transfer invocation shape (C9, shared helpers) -/

/-- In Live mode, when the skip condition does not hold, `clone_repository`
performs exactly one external invocation: `git clone <authURL> <path>`
with timeout 300. -/
theorem clone_effects_live (self : GitHubRepoBackup) (env_token : Option String)
    (repo : Repo) (fs : List Path) (res : RunResult)
    (h : ¬ (repoPath self repo ∈ fs ∧ repoPath self repo ++ [".git"] ∈ fs)) :
    (clone_repository self env_token repo fs false res).effects
      = [.gitRun ["git", "clone", injectToken env_token repo.clone_url,
                  pathStr (repoPath self repo)] 300] := by
  cases res with
  | completed rc out stderr =>
    by_cases hrc : rc = 0 <;> simp [clone_repository, h, hrc]
  | timedOut => simp [clone_repository, h]
  | exn m => simp [clone_repository, h]

/-- In Live mode, when the destination exists with its marker,
`update_repository` performs exactly one external invocation:
`git -C <path> pull --ff-only` with timeout 60. -/
theorem update_effects_live (self : GitHubRepoBackup) (repo : Repo)
    (fs : List Path) (res : RunResult)
    (h1 : repoPath self repo ∈ fs) (h2 : repoPath self repo ++ [".git"] ∈ fs) :
    (update_repository self repo fs false res).effects
      = [.gitRun ["git", "-C", pathStr (repoPath self repo),
                  "pull", "--ff-only"] 60] := by
  cases res with
  | completed rc out stderr =>
    by_cases hrc : rc = 0 <;> simp [update_repository, h1, h2, hrc]
  | timedOut => simp [update_repository, h1, h2]
  | exn m => simp [update_repository, h1, h2]

/-- C9: every Live-mode clone invocation carries timeout 300; every
Live-mode update invocation carries timeout 60 and is restricted to a
fast-forward-only pull (`--ff-only` is in its argument vector, which
contains no forced-merge or reset flag). -/
theorem transfer_bounds (self : GitHubRepoBackup) (env_token : Option String)
    (repo : Repo) (fs : List Path) (res : RunResult) :
    (¬ (repoPath self repo ∈ fs ∧ repoPath self repo ++ [".git"] ∈ fs) →
      (clone_repository self env_token repo fs false res).effects
        = [.gitRun ["git", "clone", injectToken env_token repo.clone_url,
                    pathStr (repoPath self repo)] 300])
    ∧ (repoPath self repo ∈ fs → repoPath self repo ++ [".git"] ∈ fs →
      (update_repository self repo fs false res).effects
        = [.gitRun ["git", "-C", pathStr (repoPath self repo),
                    "pull", "--ff-only"] 60])
    ∧ "--ff-only" ∈ ["git", "-C", pathStr (repoPath self repo),
                     "pull", "--ff-only"] := by
  exact ⟨clone_effects_live self env_token repo fs res,
    update_effects_live self repo fs res, by simp⟩

/-- C9 witness: concrete clone and update invocations with their
timeouts. -/
theorem transfer_bounds_witness :
    (clone_repository ⟨"t", ["bk"]⟩ (some "tok")
        ⟨"A", "u/A", false, false, "https://github.com/u/A.git"⟩ []
        false .timedOut).effects
      = [.gitRun ["git", "clone", injectToken (some "tok")
                    "https://github.com/u/A.git", "bk/public/A"] 300]
    ∧ (update_repository ⟨"t", ["bk"]⟩
        ⟨"A", "u/A", false, false, "https://github.com/u/A.git"⟩
        [["bk", "public", "A"], ["bk", "public", "A", ".git"]]
        false .timedOut).effects
      = [.gitRun ["git", "-C", "bk/public/A", "pull", "--ff-only"] 60] := by
  constructor
  · exact (transfer_bounds ⟨"t", ["bk"]⟩ (some "tok")
      ⟨"A", "u/A", false, false, "https://github.com/u/A.git"⟩ [] .timedOut).1
      (by decide)
  · exact (transfer_bounds ⟨"t", ["bk"]⟩ (some "tok")
      ⟨"A", "u/A", false, false, "https://github.com/u/A.git"⟩
      [["bk", "public", "A"], ["bk", "public", "A", ".git"]] .timedOut).2.1
      (by decide) (by decide)

/-! ### The credential comes from the environment at clone time (C10) -/

/-- The function `clone_repository` never reads the token the `GitHubRepoBackup` object
was constructed with (it reads `os.getenv` instead). -/
theorem clone_repository_ctor_token_irrel (t1 t2 : String) (bp : Path)
    (env_token : Option String) (repo : Repo) (fs : List Path)
    (dry_run : Bool) (res : RunResult) :
    clone_repository ⟨t1, bp⟩ env_token repo fs dry_run res
      = clone_repository ⟨t2, bp⟩ env_token repo fs dry_run res := by
  have hrp : repoPath ⟨t1, bp⟩ repo = repoPath ⟨t2, bp⟩ repo := by
    simp [repoPath, get_backup_subdirectory]
  simp only [clone_repository, hrp]

/-- C10: the injected credential is `os.getenv` of GITHUB_TOKEN at clone
time — the constructor token is irrelevant — and when the variable is
unset the authenticated URL carries the literal credential `None`, with
the clone still attempted using that URL. -/
theorem clone_token_from_env (t1 t2 : String) (bp : Path)
    (env_token : Option String) (repo : Repo) (fs : List Path)
    (dry_run : Bool) (res : RunResult) :
    clone_repository ⟨t1, bp⟩ env_token repo fs dry_run res
      = clone_repository ⟨t2, bp⟩ env_token repo fs dry_run res
    ∧ (List.isPrefixOf "https://github.com/".data repo.clone_url.data = true →
        "https://None@github.com/".data <+: (injectToken none repo.clone_url).data)
    ∧ (¬ (repoPath ⟨t1, bp⟩ repo ∈ fs ∧ repoPath ⟨t1, bp⟩ repo ++ [".git"] ∈ fs) →
        (clone_repository ⟨t1, bp⟩ none repo fs false res).effects
          = [.gitRun ["git", "clone", injectToken none repo.clone_url,
                      pathStr (repoPath ⟨t1, bp⟩ repo)] 300]) := by
  refine ⟨clone_repository_ctor_token_irrel t1 t2 bp env_token repo fs dry_run res,
    ?_, clone_effects_live ⟨t1, bp⟩ none repo fs res⟩
  intro h
  have he : ("https://" ++ tokenEnvString none ++ "@github.com/" : String)
      = "https://None@github.com/" := rfl
  have := injectToken_auth_prefixed none repo.clone_url h
  rwa [he] at this

/-- C10 witness: with `GITHUB_TOKEN` unset, the URL credential is the
text `None`, the clone is attempted with it, and the constructor token
makes no difference. -/
theorem clone_token_from_env_witness :
    clone_repository ⟨"ctorA", ["bk"]⟩ none
        ⟨"A", "u/A", false, false, "https://github.com/u/A.git"⟩ []
        false .timedOut
      = clone_repository ⟨"ctorB", ["bk"]⟩ none
        ⟨"A", "u/A", false, false, "https://github.com/u/A.git"⟩ []
        false .timedOut
    ∧ "https://None@github.com/".data
        <+: (injectToken none "https://github.com/u/A.git").data
    ∧ (clone_repository ⟨"ctorA", ["bk"]⟩ none
        ⟨"A", "u/A", false, false, "https://github.com/u/A.git"⟩ []
        false .timedOut).effects
      = [.gitRun ["git", "clone", injectToken none "https://github.com/u/A.git",
                  "bk/public/A"] 300] := by
  have h := clone_token_from_env "ctorA" "ctorB" ["bk"] none
    ⟨"A", "u/A", false, false, "https://github.com/u/A.git"⟩ [] false .timedOut
  exact ⟨h.1, h.2.1 (by decide), h.2.2 (by decide)⟩

/-! ### Timeout classification (C5) -/

/-- C5 counterexample: the value returned to the orchestrator does NOT
distinguish a timeout from a transfer error — both a timed-out clone and a
clone that exits non-zero return the same `False` (and likewise for
update).  Only the console messages differ. -/
theorem timeout_value_counterexample :
    (clone_repository ⟨"t", ["bk"]⟩ (some "tok")
        ⟨"A", "u/A", false, false, "https://github.com/u/A.git"⟩ []
        false .timedOut).ok
      = (clone_repository ⟨"t", ["bk"]⟩ (some "tok")
          ⟨"A", "u/A", false, false, "https://github.com/u/A.git"⟩ []
          false (.completed 1 "" "boom")).ok
    ∧ (clone_repository ⟨"t", ["bk"]⟩ (some "tok")
        ⟨"A", "u/A", false, false, "https://github.com/u/A.git"⟩ []
        false .timedOut).ok = false
    ∧ (update_repository ⟨"t", ["bk"]⟩
        ⟨"A", "u/A", false, false, "https://github.com/u/A.git"⟩
        [["bk", "public", "A"], ["bk", "public", "A", ".git"]]
        false .timedOut).ok
      = (update_repository ⟨"t", ["bk"]⟩
          ⟨"A", "u/A", false, false, "https://github.com/u/A.git"⟩
          [["bk", "public", "A"], ["bk", "public", "A", ".git"]]
          false (.completed 1 "" "boom")).ok := by
  decide

/-- C5 amended: a Live-mode transfer that exceeds its timeout always emits
the timeout console event and never the transfer-error event, and both
failure kinds return the same undifferentiated `False` to the
orchestrator. -/
theorem timeout_event_classification (self : GitHubRepoBackup)
    (env_token : Option String) (repo : Repo) (fs : List Path) :
    (¬ (repoPath self repo ∈ fs ∧ repoPath self repo ++ [".git"] ∈ fs) →
      (clone_repository self env_token repo fs false .timedOut).events
        = [.timeoutClone repo.name]
      ∧ (clone_repository self env_token repo fs false .timedOut).ok = false
      ∧ ∀ n s, Event.cloneFailed n s
          ∉ (clone_repository self env_token repo fs false .timedOut).events)
    ∧ (repoPath self repo ∈ fs → repoPath self repo ++ [".git"] ∈ fs →
      (update_repository self repo fs false .timedOut).events
        = [.timeoutUpdate repo.name]
      ∧ (update_repository self repo fs false .timedOut).ok = false
      ∧ ∀ n s, Event.couldNotUpdate n s
          ∉ (update_repository self repo fs false .timedOut).events) := by
  constructor
  · intro h
    refine ⟨by simp [clone_repository, h], by simp [clone_repository, h], ?_⟩
    intro n s
    simp [clone_repository, h]
  · intro h1 h2
    refine ⟨by simp [update_repository, h1, h2],
      by simp [update_repository, h1, h2], ?_⟩
    intro n s
    simp [update_repository, h1, h2]

/-- C5 witness: timeout events at a concrete repository, for both the
clone and the update path. -/
theorem timeout_event_classification_witness :
    ((clone_repository ⟨"t", ["bk"]⟩ (some "tok")
        ⟨"A", "u/A", false, false, "https://github.com/u/A.git"⟩ []
        false .timedOut).events = [.timeoutClone "A"]
      ∧ (clone_repository ⟨"t", ["bk"]⟩ (some "tok")
          ⟨"A", "u/A", false, false, "https://github.com/u/A.git"⟩ []
          false .timedOut).ok = false
      ∧ ∀ n s, Event.cloneFailed n s
          ∉ (clone_repository ⟨"t", ["bk"]⟩ (some "tok")
              ⟨"A", "u/A", false, false, "https://github.com/u/A.git"⟩ []
              false .timedOut).events)
    ∧ ((update_repository ⟨"t", ["bk"]⟩
        ⟨"A", "u/A", false, false, "https://github.com/u/A.git"⟩
        [["bk", "public", "A"], ["bk", "public", "A", ".git"]]
        false .timedOut).events = [.timeoutUpdate "A"]
      ∧ (update_repository ⟨"t", ["bk"]⟩
          ⟨"A", "u/A", false, false, "https://github.com/u/A.git"⟩
          [["bk", "public", "A"], ["bk", "public", "A", ".git"]]
          false .timedOut).ok = false
      ∧ ∀ n s, Event.couldNotUpdate n s
          ∉ (update_repository ⟨"t", ["bk"]⟩
              ⟨"A", "u/A", false, false, "https://github.com/u/A.git"⟩
              [["bk", "public", "A"], ["bk", "public", "A", ".git"]]
              false .timedOut).events) := by
  have h := timeout_event_classification ⟨"t", ["bk"]⟩ (some "tok")
    ⟨"A", "u/A", false, false, "https://github.com/u/A.git"⟩
  exact ⟨(h []).1 (by decide),
    (h [["bk", "public", "A"], ["bk", "public", "A", ".git"]]).2
      (by decide) (by decide)⟩

/-! ### Idempotence of sync (C2) -/

/-- C2: if a Live-mode run of the per-repository step yields `ClonedNew`,
the next Live-mode run on the resulting filesystem (no remote changes in
between) takes the update path: it can yield `UpdatedExisting` or a failed
update, but never a second `ClonedNew`.  A successful `git clone` leaves
the destination containing the `.git` marker (transfer collaborator
contract, spec section 6). -/
theorem sync_idempotent (self : GitHubRepoBackup) (env1 env2 : Option String)
    (repo : Repo) (fs : List Path) (res1 res2 : RunResult)
    (h : (process_one self env1 repo fs false res1).1 = .clonedNew) :
    (process_one self env2 repo
        (process_one self env1 repo fs false res1).2.fs false res2).1
        ≠ .clonedNew
    ∧ ((process_one self env2 repo
          (process_one self env1 repo fs false res1).2.fs false res2).1
          = .updatedExisting
       ∨ (process_one self env2 repo
          (process_one self env1 repo fs false res1).2.fs false res2).1
          = .updateFailed) := by
  by_cases hb : repoPath self repo ∈ fs ∧ repoPath self repo ++ [".git"] ∈ fs
  · exfalso
    simp only [process_one] at h
    rw [if_pos hb] at h
    by_cases hu : (update_repository self repo fs false res1).ok <;>
      simp [hu] at h
  · rcases res1 with ⟨rc, out, stderr⟩ | _ | msg
    · by_cases hrc : rc = 0
      · subst hrc
        have hfs : (process_one self env1 repo fs false
              (.completed 0 out stderr)).2.fs
            = repoPath self repo :: (repoPath self repo ++ [".git"]) :: fs := by
          simp [process_one, hb, clone_repository, cloneFsEffect]
        rw [hfs]
        have hb2 : repoPath self repo
              ∈ (repoPath self repo :: (repoPath self repo ++ [".git"]) :: fs)
            ∧ repoPath self repo ++ [".git"]
              ∈ (repoPath self repo :: (repoPath self repo ++ [".git"]) :: fs) :=
          ⟨List.mem_cons_self _ _, List.mem_cons_of_mem _ (List.mem_cons_self _ _)⟩
        constructor
        · simp only [process_one]
          rw [if_pos hb2]
          by_cases hu : (update_repository self repo
              (repoPath self repo :: (repoPath self repo ++ [".git"]) :: fs)
              false res2).ok <;> simp [hu]
        · simp only [process_one]
          rw [if_pos hb2]
          by_cases hu : (update_repository self repo
              (repoPath self repo :: (repoPath self repo ++ [".git"]) :: fs)
              false res2).ok
          · left; simp [hu]
          · right; simp [hu]
      · exfalso
        simp [process_one, hb, clone_repository, hrc] at h
    · exfalso
      simp [process_one, hb, clone_repository] at h
    · exfalso
      simp [process_one, hb, clone_repository] at h

/-- C2 witness: a concrete first run clones, the second run on the
resulting filesystem updates rather than cloning again. -/
theorem sync_idempotent_witness :
    (process_one ⟨"t", ["bk"]⟩ (some "tok")
        ⟨"A", "u/A", false, false, "https://github.com/u/A.git"⟩ []
        false (.completed 0 "" "")).1 = .clonedNew
    ∧ ((process_one ⟨"t", ["bk"]⟩ (some "tok")
          ⟨"A", "u/A", false, false, "https://github.com/u/A.git"⟩
          (process_one ⟨"t", ["bk"]⟩ (some "tok")
            ⟨"A", "u/A", false, false, "https://github.com/u/A.git"⟩ []
            false (.completed 0 "" "")).2.fs
          false (.completed 0 "" "")).1 ≠ .clonedNew
      ∧ ((process_one ⟨"t", ["bk"]⟩ (some "tok")
            ⟨"A", "u/A", false, false, "https://github.com/u/A.git"⟩
            (process_one ⟨"t", ["bk"]⟩ (some "tok")
              ⟨"A", "u/A", false, false, "https://github.com/u/A.git"⟩ []
              false (.completed 0 "" "")).2.fs
            false (.completed 0 "" "")).1 = .updatedExisting
        ∨ (process_one ⟨"t", ["bk"]⟩ (some "tok")
            ⟨"A", "u/A", false, false, "https://github.com/u/A.git"⟩
            (process_one ⟨"t", ["bk"]⟩ (some "tok")
              ⟨"A", "u/A", false, false, "https://github.com/u/A.git"⟩ []
              false (.completed 0 "" "")).2.fs
            false (.completed 0 "" "")).1 = .updateFailed)) :=
  ⟨by decide, sync_idempotent ⟨"t", ["bk"]⟩ (some "tok") (some "tok")
    ⟨"A", "u/A", false, false, "https://github.com/u/A.git"⟩ []
    (.completed 0 "" "") (.completed 0 "" "") (by decide)⟩

/-! ### Existing directory without the version-control marker (C7) -/

/-- The function `clone_repository` never removes an existing path: the filesystem it
returns contains every path it was given. -/
theorem clone_repository_fs_superset (self : GitHubRepoBackup)
    (env_token : Option String) (repo : Repo) (fs : List Path) (dry_run : Bool)
    (res : RunResult) (p : Path) (hp : p ∈ fs) :
    p ∈ (clone_repository self env_token repo fs dry_run res).fs := by
  by_cases hb : repoPath self repo ∈ fs ∧ repoPath self repo ++ [".git"] ∈ fs
  · simp [clone_repository, hb, hp]
  · cases dry_run with
    | true => simp [clone_repository, hb, hp]
    | false =>
      rcases res with ⟨rc, out, stderr⟩ | _ | m
      · by_cases hrc : rc = 0 <;>
          simp [clone_repository, hb, hrc, cloneFsEffect, hp, List.mem_cons]
      · simp [clone_repository, hb, hp]
      · simp [clone_repository, hb, hp]

/-- C7 counterexample: a destination that exists WITHOUT the `.git`
marker is not skipped as already backed up — the Live run invokes
`git clone` into that very path, and with git refusing the non-empty
directory the repository is counted as failed, not as a success. -/
theorem nonrepo_dir_counterexample :
    (backup_repositories ⟨"t", ["bk"]⟩ (some "tok")
        [⟨"A", "u/A", false, false, "https://github.com/u/A.git"⟩]
        [["bk", "public", "A"]] false
        (fun _ => .completed 128 ""
          "fatal: destination path bk/public/A already exists and is not an empty directory.")).failed
      = 1
    ∧ (backup_repositories ⟨"t", ["bk"]⟩ (some "tok")
        [⟨"A", "u/A", false, false, "https://github.com/u/A.git"⟩]
        [["bk", "public", "A"]] false
        (fun _ => .completed 128 ""
          "fatal: destination path bk/public/A already exists and is not an empty directory.")).successful
      = 0
    ∧ (backup_repositories ⟨"t", ["bk"]⟩ (some "tok")
        [⟨"A", "u/A", false, false, "https://github.com/u/A.git"⟩]
        [["bk", "public", "A"]] false
        (fun _ => .completed 128 ""
          "fatal: destination path bk/public/A already exists and is not an empty directory.")).effects
      = [.gitRun ["git", "clone", "https://tok@github.com/u/A.git",
                  "bk/public/A"] 300] := by
  decide

/-- C7 amended: for a destination that exists without the marker, the
Live-mode step takes the clone path — it invokes `git clone` into that
directory and reports clone success or failure as the transfer result
dictates (never an unconditional skip-success) — while the program itself
never deletes any existing path. -/
theorem nonrepo_dir_clone_path (self : GitHubRepoBackup)
    (env_token : Option String) (repo : Repo) (fs : List Path) (res : RunResult)
    (hex : repoPath self repo ∈ fs)
    (hng : repoPath self repo ++ [".git"] ∉ fs) :
    ((process_one self env_token repo fs false res).1 = .clonedNew
      ∨ (process_one self env_token repo fs false res).1 = .cloneFailed)
    ∧ (process_one self env_token repo fs false res).2.effects
        = [.gitRun ["git", "clone", injectToken env_token repo.clone_url,
                    pathStr (repoPath self repo)] 300]
    ∧ ∀ p ∈ fs, p ∈ (process_one self env_token repo fs false res).2.fs := by
  have hb : ¬ (repoPath self repo ∈ fs ∧ repoPath self repo ++ [".git"] ∈ fs) :=
    fun hc => hng hc.2
  refine ⟨?_, ?_, ?_⟩
  · simp only [process_one]
    rw [if_neg hb]
    by_cases hu : (clone_repository self env_token repo fs false res).ok <;>
      simp [hu]
  · simp only [process_one]
    rw [if_neg hb]
    exact clone_effects_live self env_token repo fs res hb
  · intro p hp
    simp only [process_one]
    rw [if_neg hb]
    exact clone_repository_fs_superset self env_token repo fs false res p hp

/-- C7 witness for the amended claim, at a concrete non-repository
directory. -/
theorem nonrepo_dir_clone_path_witness :
    ((process_one ⟨"t", ["bk"]⟩ (some "tok")
        ⟨"A", "u/A", false, false, "https://github.com/u/A.git"⟩
        [["bk", "public", "A"]] false (.completed 128 "" "refused")).1
        = .clonedNew
      ∨ (process_one ⟨"t", ["bk"]⟩ (some "tok")
          ⟨"A", "u/A", false, false, "https://github.com/u/A.git"⟩
          [["bk", "public", "A"]] false (.completed 128 "" "refused")).1
        = .cloneFailed)
    ∧ (process_one ⟨"t", ["bk"]⟩ (some "tok")
        ⟨"A", "u/A", false, false, "https://github.com/u/A.git"⟩
        [["bk", "public", "A"]] false (.completed 128 "" "refused")).2.effects
        = [.gitRun ["git", "clone",
                    injectToken (some "tok") "https://github.com/u/A.git",
                    "bk/public/A"] 300]
    ∧ ∀ p ∈ [["bk", "public", "A"]],
        p ∈ (process_one ⟨"t", ["bk"]⟩ (some "tok")
          ⟨"A", "u/A", false, false, "https://github.com/u/A.git"⟩
          [["bk", "public", "A"]] false (.completed 128 "" "refused")).2.fs :=
  nonrepo_dir_clone_path ⟨"t", ["bk"]⟩ (some "tok")
    ⟨"A", "u/A", false, false, "https://github.com/u/A.git"⟩
    [["bk", "public", "A"]] (.completed 128 "" "refused")
    (by decide) (by decide)

/-! ### Dry-run side effects (C3) -/

/-- In DryRun mode `clone_repository` performs no mutating I/O. -/
theorem clone_repository_dry_effects (self : GitHubRepoBackup)
    (env_token : Option String) (repo : Repo) (fs : List Path)
    (res : RunResult) :
    (clone_repository self env_token repo fs true res).effects = [] := by
  by_cases hb : repoPath self repo ∈ fs ∧ repoPath self repo ++ [".git"] ∈ fs <;>
    simp [clone_repository, hb]

/-- In DryRun mode `update_repository` performs no mutating I/O. -/
theorem update_repository_dry_effects (self : GitHubRepoBackup) (repo : Repo)
    (fs : List Path) (res : RunResult) :
    (update_repository self repo fs true res).effects = [] := by
  by_cases hb : ¬ repoPath self repo ∈ fs ∨ ¬ repoPath self repo ++ [".git"] ∈ fs <;>
    simp [update_repository, hb]

/-- In DryRun mode the per-repository step performs no mutating I/O. -/
theorem process_one_dry_effects (self : GitHubRepoBackup)
    (env_token : Option String) (repo : Repo) (fs : List Path)
    (res : RunResult) :
    (process_one self env_token repo fs true res).2.effects = [] := by
  by_cases hb : repoPath self repo ∈ fs ∧ repoPath self repo ++ [".git"] ∈ fs
  · simp only [process_one]
    rw [if_pos hb]
    exact update_repository_dry_effects self repo fs res
  · simp only [process_one]
    rw [if_neg hb]
    exact clone_repository_dry_effects self env_token repo fs res

/-- The DryRun orchestrator loop accumulates no mutating effects. -/
theorem backup_loop_dry_effects (self : GitHubRepoBackup)
    (env_token : Option String) (oracle : Nat → RunResult) :
    ∀ (rest : List Repo) (i : Nat) (s : RunState),
    (backup_loop self env_token true oracle rest i s).effects = s.effects := by
  intro rest
  induction rest with
  | nil => intro i s; rfl
  | cons repo rest ih =>
    intro i s
    rw [backup_loop, ih]
    simp [process_one_dry_effects]

/-- C3 amended, positive half: the backup phase in DryRun mode performs
no mutating I/O at all — no directory creation, no external transfer
invocation. -/
theorem dryrun_backup_no_effects (self : GitHubRepoBackup)
    (env_token : Option String) (repos : List Repo) (fs : List Path)
    (oracle : Nat → RunResult) :
    (backup_repositories self env_token repos fs true oracle).effects = [] := by
  by_cases he : repos.isEmpty
  · simp [backup_repositories, he]
  · simp [backup_repositories, he, finalizeRun, backup_loop_dry_effects]

/-- C3 counterexample: a `--dry-run` invocation of `main` still creates
the backup root and the three category directories — `main` runs
`setup_backup_directories` before, and regardless of, the dry-run check. -/
theorem dryrun_counterexample :
    Effect.mkdir ["bk"]
      ∈ mainEffects (some "tok") ["bk"] true
          [⟨"A", "u/A", false, false, "https://github.com/u/A.git"⟩] []
          true true (fun _ => .timedOut)
    ∧ mainEffects (some "tok") ["bk"] true
          [⟨"A", "u/A", false, false, "https://github.com/u/A.git"⟩] []
          true true (fun _ => .timedOut)
        = [.mkdir ["bk"], .mkdir ["bk", "public"], .mkdir ["bk", "private"],
           .mkdir ["bk", "forks"]] := by
  decide

/-! ### Failure isolation (C4) -/

/-- The names announced by `processing` events, in order: one per
repository the orchestrator attempted. -/
def processedNames (evs : List Event) : List String :=
  evs.filterMap (fun e => match e with
    | .processing n => some n
    | _ => none)

theorem processedNames_append (a b : List Event) :
    processedNames (a ++ b) = processedNames a ++ processedNames b :=
  List.filterMap_append a b _

/-- The engine functions themselves emit no `processing` event. -/
theorem processedNames_clone (self : GitHubRepoBackup)
    (env_token : Option String) (repo : Repo) (fs : List Path)
    (dry_run : Bool) (res : RunResult) :
    processedNames (clone_repository self env_token repo fs dry_run res).events
      = [] := by
  by_cases hb : repoPath self repo ∈ fs ∧ repoPath self repo ++ [".git"] ∈ fs
  · simp [clone_repository, hb, processedNames]
  · cases dry_run with
    | true => simp [clone_repository, hb, processedNames]
    | false =>
      rcases res with ⟨rc, out, stderr⟩ | _ | m
      · by_cases hrc : rc = 0 <;> simp [clone_repository, hb, hrc, processedNames]
      · simp [clone_repository, hb, processedNames]
      · simp [clone_repository, hb, processedNames]

theorem processedNames_update (self : GitHubRepoBackup) (repo : Repo)
    (fs : List Path) (dry_run : Bool) (res : RunResult) :
    processedNames (update_repository self repo fs dry_run res).events = [] := by
  by_cases hb : ¬ repoPath self repo ∈ fs ∨ ¬ repoPath self repo ++ [".git"] ∈ fs
  · simp [update_repository, hb, processedNames]
  · cases dry_run with
    | true => simp [update_repository, hb, processedNames]
    | false =>
      rcases res with ⟨rc, out, stderr⟩ | _ | m
      · by_cases hrc : rc = 0 <;> simp [update_repository, hb, hrc, processedNames]
      · simp [update_repository, hb, processedNames]
      · simp [update_repository, hb, processedNames]

theorem processedNames_process_one (self : GitHubRepoBackup)
    (env_token : Option String) (repo : Repo) (fs : List Path)
    (dry_run : Bool) (res : RunResult) :
    processedNames (process_one self env_token repo fs dry_run res).2.events
      = [] := by
  by_cases hb : repoPath self repo ∈ fs ∧ repoPath self repo ++ [".git"] ∈ fs
  · simp only [process_one]
    rw [if_pos hb]
    exact processedNames_update self repo fs dry_run res
  · simp only [process_one]
    rw [if_neg hb]
    exact processedNames_clone self env_token repo fs dry_run res

theorem processedNames_processing_cons (n : String) (evs : List Event) :
    processedNames (.processing n :: evs) = n :: processedNames evs := by
  simp [processedNames]

/-- Every repository reaching the loop is announced, in input order. -/
theorem backup_loop_processedNames (self : GitHubRepoBackup)
    (env_token : Option String) (dry_run : Bool) (oracle : Nat → RunResult) :
    ∀ (rest : List Repo) (i : Nat) (s : RunState),
    processedNames (backup_loop self env_token dry_run oracle rest i s).events
      = processedNames s.events ++ rest.map Repo.name := by
  intro rest
  induction rest with
  | nil => intro i s; simp [backup_loop]
  | cons repo rest ih =>
    intro i s
    simp only [backup_loop]
    rw [ih, processedNames_append, processedNames_processing_cons,
      processedNames_process_one]
    simp

/-- Exactly one of the three counters is bumped per repository. -/
theorem backup_loop_counters (self : GitHubRepoBackup)
    (env_token : Option String) (dry_run : Bool) (oracle : Nat → RunResult) :
    ∀ (rest : List Repo) (i : Nat) (s : RunState),
    (backup_loop self env_token dry_run oracle rest i s).successful
      + (backup_loop self env_token dry_run oracle rest i s).updated
      + (backup_loop self env_token dry_run oracle rest i s).failed
      = s.successful + s.updated + s.failed + rest.length := by
  intro rest
  induction rest with
  | nil => intro i s; simp [backup_loop]
  | cons repo rest ih =>
    intro i s
    rw [backup_loop, ih]
    cases ho : (process_one self env_token repo s.fs dry_run (oracle i)).1 <;>
      simp [ho] <;> omega

/-- C4: in any run — however the transfers fail — every descriptor is
attempted in input order, one counter records each, and the summary
satisfies `totalProcessed = N` with `newlyCloned + updated + failed = N`. -/
theorem failure_isolation (self : GitHubRepoBackup) (env_token : Option String)
    (repos : List Repo) (fs : List Path) (dry_run : Bool)
    (oracle : Nat → RunResult) (hne : repos ≠ []) :
    processedNames
        (backup_repositories self env_token repos fs dry_run oracle).events
      = repos.map Repo.name
    ∧ (backup_repositories self env_token repos fs dry_run oracle).successful
      + (backup_repositories self env_token repos fs dry_run oracle).updated
      + (backup_repositories self env_token repos fs dry_run oracle).failed
      = repos.length
    ∧ Event.summaryTable
        (backup_repositories self env_token repos fs dry_run oracle).successful
        (backup_repositories self env_token repos fs dry_run oracle).updated
        (backup_repositories self env_token repos fs dry_run oracle).failed
        repos.length
      ∈ (backup_repositories self env_token repos fs dry_run oracle).events := by
  rcases repos with _ | ⟨r0, rest⟩
  · exact absurd rfl hne
  · have hpn := backup_loop_processedNames self env_token dry_run oracle
      (r0 :: rest) 0
      { successful := 0, failed := 0, updated := 0, events := [],
        effects := [], fs := fs }
    have hct := backup_loop_counters self env_token dry_run oracle
      (r0 :: rest) 0
      { successful := 0, failed := 0, updated := 0, events := [],
        effects := [], fs := fs }
    have hbe : backup_repositories self env_token (r0 :: rest) fs dry_run oracle
        = finalizeRun
            (backup_loop self env_token dry_run oracle (r0 :: rest) 0
              { successful := 0, failed := 0, updated := 0, events := [],
                effects := [], fs := fs })
            (r0 :: rest).length := by
      simp [backup_repositories]
    refine ⟨?_, ?_, ?_⟩
    · rw [hbe]
      simp only [finalizeRun, processedNames_append]
      rw [hpn]
      simp [processedNames]
    · rw [hbe]
      simpa [finalizeRun] using hct
    · rw [hbe]
      simp [finalizeRun, List.mem_append]

/-- C4 witness: a concrete batch of two repositories whose transfers all
time out is still fully attempted, with `0 + 0 + 2 = 2` recorded. -/
theorem failure_isolation_witness :
    ([(⟨"A", "u/A", false, false, "https://github.com/u/A.git"⟩ : Repo),
      ⟨"B", "u/B", true, false, "https://github.com/u/B.git"⟩] : List Repo) ≠ []
    ∧ processedNames
        (backup_repositories ⟨"t", ["bk"]⟩ (some "tok")
          [⟨"A", "u/A", false, false, "https://github.com/u/A.git"⟩,
           ⟨"B", "u/B", true, false, "https://github.com/u/B.git"⟩]
          [] false (fun _ => .timedOut)).events = ["A", "B"]
    ∧ (backup_repositories ⟨"t", ["bk"]⟩ (some "tok")
          [⟨"A", "u/A", false, false, "https://github.com/u/A.git"⟩,
           ⟨"B", "u/B", true, false, "https://github.com/u/B.git"⟩]
          [] false (fun _ => .timedOut)).successful
      + (backup_repositories ⟨"t", ["bk"]⟩ (some "tok")
          [⟨"A", "u/A", false, false, "https://github.com/u/A.git"⟩,
           ⟨"B", "u/B", true, false, "https://github.com/u/B.git"⟩]
          [] false (fun _ => .timedOut)).updated
      + (backup_repositories ⟨"t", ["bk"]⟩ (some "tok")
          [⟨"A", "u/A", false, false, "https://github.com/u/A.git"⟩,
           ⟨"B", "u/B", true, false, "https://github.com/u/B.git"⟩]
          [] false (fun _ => .timedOut)).failed = 2
    ∧ Event.summaryTable
        (backup_repositories ⟨"t", ["bk"]⟩ (some "tok")
          [⟨"A", "u/A", false, false, "https://github.com/u/A.git"⟩,
           ⟨"B", "u/B", true, false, "https://github.com/u/B.git"⟩]
          [] false (fun _ => .timedOut)).successful
        (backup_repositories ⟨"t", ["bk"]⟩ (some "tok")
          [⟨"A", "u/A", false, false, "https://github.com/u/A.git"⟩,
           ⟨"B", "u/B", true, false, "https://github.com/u/B.git"⟩]
          [] false (fun _ => .timedOut)).updated
        (backup_repositories ⟨"t", ["bk"]⟩ (some "tok")
          [⟨"A", "u/A", false, false, "https://github.com/u/A.git"⟩,
           ⟨"B", "u/B", true, false, "https://github.com/u/B.git"⟩]
          [] false (fun _ => .timedOut)).failed 2
      ∈ (backup_repositories ⟨"t", ["bk"]⟩ (some "tok")
          [⟨"A", "u/A", false, false, "https://github.com/u/A.git"⟩,
           ⟨"B", "u/B", true, false, "https://github.com/u/B.git"⟩]
          [] false (fun _ => .timedOut)).events := by
  have h := failure_isolation ⟨"t", ["bk"]⟩ (some "tok")
    [⟨"A", "u/A", false, false, "https://github.com/u/A.git"⟩,
     ⟨"B", "u/B", true, false, "https://github.com/u/B.git"⟩]
    [] false (fun _ => .timedOut) (by decide)
  exact ⟨by decide, h.1, h.2.1, h.2.2⟩

/-! ### Credential non-leak (C6) -/

/-- Substring test on character lists (used to exhibit the leak). -/
def containsSub (s pat : List Char) : Bool :=
  match s with
  | [] => pat.isEmpty
  | c :: tl => pat.isPrefixOf (c :: tl) || containsSub tl pat

/-- Everything `clone_repository` produces except the transfer invocation
itself — the returned bool, the console events, the filesystem — is
independent of the token. -/
theorem clone_repository_token_obs (self : GitHubRepoBackup)
    (t1 t2 : Option String) (repo : Repo) (fs : List Path) (dry_run : Bool)
    (res : RunResult) :
    (clone_repository self t1 repo fs dry_run res).ok
      = (clone_repository self t2 repo fs dry_run res).ok
    ∧ (clone_repository self t1 repo fs dry_run res).events
      = (clone_repository self t2 repo fs dry_run res).events
    ∧ (clone_repository self t1 repo fs dry_run res).fs
      = (clone_repository self t2 repo fs dry_run res).fs := by
  by_cases hb : repoPath self repo ∈ fs ∧ repoPath self repo ++ [".git"] ∈ fs
  · simp [clone_repository, hb]
  · cases dry_run with
    | true => simp [clone_repository, hb]
    | false =>
      rcases res with ⟨rc, out, stderr⟩ | _ | m
      · by_cases hrc : rc = 0 <;> simp [clone_repository, hb, hrc]
      · simp [clone_repository, hb]
      · simp [clone_repository, hb]

/-- Token-independence of one orchestrator step: outcome, events and
filesystem agree for any two tokens. -/
theorem process_one_token_obs (self : GitHubRepoBackup)
    (t1 t2 : Option String) (repo : Repo) (fs : List Path) (dry_run : Bool)
    (res : RunResult) :
    (process_one self t1 repo fs dry_run res).1
      = (process_one self t2 repo fs dry_run res).1
    ∧ (process_one self t1 repo fs dry_run res).2.events
      = (process_one self t2 repo fs dry_run res).2.events
    ∧ (process_one self t1 repo fs dry_run res).2.fs
      = (process_one self t2 repo fs dry_run res).2.fs := by
  by_cases hb : repoPath self repo ∈ fs ∧ repoPath self repo ++ [".git"] ∈ fs
  · simp [process_one, if_pos hb]
  · have hc := clone_repository_token_obs self t1 t2 repo fs dry_run res
    simp only [process_one, if_neg hb]
    refine ⟨by rw [hc.1], hc.2.1, hc.2.2⟩

/-- Token-independence of the orchestrator loop on events, counters and
filesystem. -/
theorem backup_loop_token_obs (self : GitHubRepoBackup)
    (t1 t2 : Option String) (dry_run : Bool) (oracle : Nat → RunResult) :
    ∀ (rest : List Repo) (i : Nat) (s1 s2 : RunState),
    s1.successful = s2.successful → s1.failed = s2.failed →
    s1.updated = s2.updated → s1.events = s2.events → s1.fs = s2.fs →
    (backup_loop self t1 dry_run oracle rest i s1).successful
      = (backup_loop self t2 dry_run oracle rest i s2).successful
    ∧ (backup_loop self t1 dry_run oracle rest i s1).failed
      = (backup_loop self t2 dry_run oracle rest i s2).failed
    ∧ (backup_loop self t1 dry_run oracle rest i s1).updated
      = (backup_loop self t2 dry_run oracle rest i s2).updated
    ∧ (backup_loop self t1 dry_run oracle rest i s1).events
      = (backup_loop self t2 dry_run oracle rest i s2).events
    ∧ (backup_loop self t1 dry_run oracle rest i s1).fs
      = (backup_loop self t2 dry_run oracle rest i s2).fs := by
  intro rest
  induction rest with
  | nil =>
    intro i s1 s2 h1 h2 h3 h4 h5
    exact ⟨h1, h2, h3, h4, h5⟩
  | cons repo rest ih =>
    intro i s1 s2 h1 h2 h3 h4 h5
    simp only [backup_loop]
    have hp := process_one_token_obs self t1 t2 repo s1.fs dry_run (oracle i)
    rw [← h5]
    apply ih
    · rw [hp.1, h1]
    · rw [hp.1, h2]
    · rw [hp.1, h3]
    · rw [hp.2.1, h4]
    · exact hp.2.2

/-- C6 amended, positive half: with the transfer collaborator outputs
held fixed, the whole run is token-noninterferent outside the transfer
invocation itself — reporter events, all counters of the summary, and the
resulting filesystem are identical for any two tokens.  The program never
writes the secret into anything it reports. -/
theorem credential_noninterference (self : GitHubRepoBackup)
    (t1 t2 : Option String) (repos : List Repo) (fs : List Path)
    (dry_run : Bool) (oracle : Nat → RunResult) :
    (backup_repositories self t1 repos fs dry_run oracle).events
      = (backup_repositories self t2 repos fs dry_run oracle).events
    ∧ (backup_repositories self t1 repos fs dry_run oracle).successful
      = (backup_repositories self t2 repos fs dry_run oracle).successful
    ∧ (backup_repositories self t1 repos fs dry_run oracle).updated
      = (backup_repositories self t2 repos fs dry_run oracle).updated
    ∧ (backup_repositories self t1 repos fs dry_run oracle).failed
      = (backup_repositories self t2 repos fs dry_run oracle).failed
    ∧ (backup_repositories self t1 repos fs dry_run oracle).fs
      = (backup_repositories self t2 repos fs dry_run oracle).fs := by
  rcases repos with _ | ⟨r0, rest⟩
  · simp [backup_repositories]
  · obtain ⟨hs, hf, hu, hev, hfs⟩ := backup_loop_token_obs self t1 t2 dry_run
      oracle (r0 :: rest) 0
      { successful := 0, failed := 0, updated := 0, events := [],
        effects := [], fs := fs }
      { successful := 0, failed := 0, updated := 0, events := [],
        effects := [], fs := fs }
      rfl rfl rfl rfl rfl
    simp [backup_repositories, finalizeRun, hs, hf, hu, hev, hfs]

/-- C6 counterexample: the failure path delivers the transfer tool
stderr to the Reporter verbatim, so when that stderr quotes the
authenticated URL the token reaches the console: this concrete run emits
a `cloneFailed` event whose text contains the authenticated URL as a
substring. -/
theorem credential_leak_counterexample :
    Event.cloneFailed "A"
        "fatal: unable to access https://tok@github.com/u/A.git/ some error"
      ∈ (backup_repositories ⟨"tok", ["bk"]⟩ (some "tok")
          [⟨"A", "u/A", false, false, "https://github.com/u/A.git"⟩] [] false
          (fun _ => .completed 128 ""
            "fatal: unable to access https://tok@github.com/u/A.git/ some error")).events
    ∧ containsSub
        "fatal: unable to access https://tok@github.com/u/A.git/ some error".data
        (injectToken (some "tok") "https://github.com/u/A.git").data = true := by
  decide

end BackupRepos
